import Mathlib

/-!
Shallow embedding of the kagent Agent Conversation Core
(src/kagent/core/tool.py, src/kagent/core/agent.py, src/kagent/core/context.py,
src/kagent/interaction/manager.py) and proofs about it.

External Python facilities (tiktoken encoding, json.loads / json.dumps,
traceback.format_exc) are modelled as explicit function parameters; Python
dicts that preserve insertion order are modelled as association lists.
-/

namespace Kagent

/-- Apostrophe character, used to reproduce source-format strings without a
literal apostrophe in this file. -/
def sq : String := String.mk [Char.ofNat 39]

/-- Argument dictionary passed to a tool handler (a JSON object whose values
we keep as strings; no claim inspects individual argument values). -/
abbrev Args := List (String × String)

/-- A Python exception as observed by an except-block: the str of the
exception and the formatted traceback (`traceback.format_exc()`). -/
structure PyErr where
  msg : String
  tb : String
  deriving Repr, DecidableEq

/-- Insertion-ordered dict write, as for a Python dict: update in place when
the key exists, append otherwise. -/
def dictSet {α : Type} (l : List (String × α)) (k : String) (v : α) :
    List (String × α) :=
  if l.any (fun p => p.1 = k) then
    l.map (fun p => if p.1 = k then (k, v) else p)
  else
    l ++ [(k, v)]

/-- Dict lookup. -/
def dictGet {α : Type} (l : List (String × α)) (k : String) : Option α :=
  (l.find? (fun p => p.1 = k)).map Prod.snd

/-- Dict key removal (`dict.pop` / file unlink). -/
def dictDel {α : Type} (l : List (String × α)) (k : String) :
    List (String × α) :=
  l.filter (fun p => p.1 ≠ k)

/-- Embeds `Tool` (src/kagent/core/tool.py): name, description, JSON-schema
parameters (kept opaque as a string: no claim inspects the schema), and the
async handler, modelled as a function that either returns a result string or
raises. -/
structure Tool where
  name : String
  description : String
  parameters : String
  handler : Args → Except PyErr String

/-- The `function` part of the OpenAI function-calling format. -/
structure OpenAIFunctionDef where
  name : String
  description : String
  parameters : String
  deriving Repr, DecidableEq

/-- Embeds the dict returned by `Tool.to_openai_format`. -/
structure OpenAIToolDef where
  type : String
  function : OpenAIFunctionDef
  deriving Repr, DecidableEq

/-- Embeds `Tool.to_openai_format` (tool.py lines 60-69). -/
def Tool.to_openai_format (t : Tool) : OpenAIToolDef :=
  { type := "function",
    function :=
      { name := t.name, description := t.description,
        parameters := t.parameters } }

/-- Embeds `ToolResult` (tool.py lines 27-48). -/
structure ToolResult where
  success : Bool
  tool_name : String
  arguments : Args
  result : Option String
  error : Option String := none
  deriving Repr, DecidableEq

/-- Embeds `ToolResult.to_display_string`; `dumps` stands for the external
`json.dumps(..., ensure_ascii=False, indent=2)`. -/
def ToolResult.to_display_string (dumps : Args → String) (r : ToolResult) :
    String :=
  let base := "[Tool: " ++ r.tool_name ++ "]" ++ "\n" ++
    "Arguments: " ++ dumps r.arguments
  if r.success then
    let result_str := match r.result with
      | some s => s
      | none => "(empty)"
    base ++ "\n" ++ "Result:\n" ++ result_str
  else
    base ++ "\n" ++ "Error: " ++
      (match r.error with
        | some s => s
        | none => "None")

/-- Embeds `ToolManager` (tool.py lines 193-364): `_tools` is an
insertion-ordered dict from lower-cased name to tool. -/
structure ToolManager where
  tools : List (String × Tool)

/-- Python `str.lower()`, modelled character-wise (`Char.toLower` on the
character list; the tool names involved are ASCII). -/
def pyLower (s : String) : String :=
  String.mk (s.data.map Char.toLower)

/-- Embeds `ToolManager.register`: stores the tool under its lower-cased
name. -/
def ToolManager.register (tm : ToolManager) (t : Tool) : ToolManager :=
  { tm with tools := dictSet tm.tools (pyLower t.name) t }

/-- Embeds `ToolManager.get_tool`: lookup by lower-cased name. -/
def ToolManager.get_tool (tm : ToolManager) (name : String) : Option Tool :=
  dictGet tm.tools (pyLower name)

/-- The keys of the internal dict (`self._tools.keys()`). -/
def ToolManager.keys (tm : ToolManager) : List String :=
  tm.tools.map Prod.fst

/-- Embeds `ToolManager.list_tools`. -/
def ToolManager.list_tools (tm : ToolManager) : List Tool :=
  tm.tools.map Prod.snd

/-- Embeds `ToolManager.get_openai_tools`. -/
def ToolManager.get_openai_tools (tm : ToolManager) : List OpenAIToolDef :=
  tm.list_tools.map Tool.to_openai_format

/-- Modelled from the spec: `ToolManager.get_all_tools` is called by
`Agent._get_tool_definitions` (agent.py line 156) but its definition is not
under src (the ToolManager there predates it; the same snapshot lacks
`AgentLoop` and the `load_mcp` flag its tests use). Per the spec, the
sentinel "all" expands to every registered tool, i.e. the behaviour of the
present `get_openai_tools`. -/
def ToolManager.get_all_tools (tm : ToolManager) : List OpenAIToolDef :=
  tm.get_openai_tools

/-- Modelled from the spec: `ToolManager.has_tool` is called by
`Agent._get_tool_definitions` (agent.py line 165) but absent from src; per
the spec an explicit name list is filtered against the registry, so it tests
registry membership via the present `get_tool`. -/
def ToolManager.has_tool (tm : ToolManager) (name : String) : Bool :=
  (tm.get_tool name).isSome

/-- Embeds `ToolManager.execute` (tool.py lines 277-301): unknown tool or a
raising handler yields a failed ToolResult, never an exception. -/
def ToolManager.execute (tm : ToolManager) (tool_name : String)
    (arguments : Args) : ToolResult :=
  match tm.get_tool tool_name with
  | none =>
    { success := false, tool_name := tool_name, arguments := arguments,
      result := none,
      error := some ("Tool " ++ sq ++ tool_name ++ sq ++
        " not found. Available: " ++ String.intercalate ", " tm.keys) }
  | some t =>
    match t.handler arguments with
    | Except.ok r =>
      { success := true, tool_name := tool_name, arguments := arguments,
        result := some r, error := none }
    | Except.error e =>
      { success := false, tool_name := tool_name, arguments := arguments,
        result := none, error := some (e.msg ++ "\n" ++ e.tb) }

/-- Embeds `Agent._get_tool_definitions` (agent.py lines 144-169). -/
def Agent.get_tool_definitions (tm : ToolManager) (tool_names : List String) :
    List OpenAIToolDef :=
  if tool_names = ["all"] then
    tm.get_all_tools
  else if tool_names = [] then
    []
  else
    tool_names.foldl (fun acc name =>
      if tm.has_tool name then
        match tm.get_tool name with
        | some t => acc ++ [t.to_openai_format]
        | none => acc
      else acc) []

/-- A tool call as embedded in an assistant message dict (agent.py lines
276-286): `{id, type, function: {name, arguments}}`, with the `function`
sub-dict flattened. -/
structure ToolCallJson where
  id : String
  type : String
  function_name : String
  function_arguments : String
  deriving Repr, DecidableEq

/-- A conversation-history message dict. Optional keys of the Python dict
are defaulted fields here; `content` is a string (the code guards `if
content:` so an absent content behaves as the empty string). -/
structure Message where
  role : String
  content : String
  tool_calls : List ToolCallJson := []
  tool_call_id : Option String := none
  name : Option String := none
  is_summary : Bool := false
  is_metadata : Bool := false
  deriving Repr, DecidableEq

/-- A skill as used by context.py (fields `name`, `description`, `content`,
`path`; the separate skill.py dataclass in the same snapshot has drifted to
`source_path`, so the shape context.py manipulates is embedded). -/
structure Skill where
  name : String
  description : String
  content : String
  path : String := ""
  deriving Repr, DecidableEq

/-- Embeds `AgentRuntime` (context.py lines 18-34) with its field
defaults. -/
structure AgentRuntime where
  session_id : String := ""
  work_dir : String := ""
  token_count : Nat := 0
  max_tokens : Nat := 200000
  ratio_of_compress : Rat := 7 / 10
  keep_last_n_messages : Nat := 3
  system_prompt : String :=
    "You are a helpful AI assistant with access to tools for file operations."
  loaded_skills : List Skill := []
  conversation_history : List Message := []
  deriving Repr, DecidableEq

/-- The serialized skill entry written by `AgentRuntime.to_dict`. -/
structure SkillDictEntry where
  name : String
  description : String
  path : String
  deriving Repr, DecidableEq

/-- The dict produced by `AgentRuntime.to_dict` (context.py lines 36-51). -/
structure SessionDict where
  session_id : String
  work_dir : String
  token_count : Nat
  max_tokens : Nat
  ratio_of_compress : Rat
  keep_last_n_messages : Nat
  system_prompt : String
  loaded_skills : List SkillDictEntry
  conversation_history : List Message
  deriving Repr, DecidableEq

/-- Embeds `AgentRuntime.to_dict`. -/
def AgentRuntime.to_dict (r : AgentRuntime) : SessionDict :=
  { session_id := r.session_id
    work_dir := r.work_dir
    token_count := r.token_count
    max_tokens := r.max_tokens
    ratio_of_compress := r.ratio_of_compress
    keep_last_n_messages := r.keep_last_n_messages
    system_prompt := r.system_prompt
    loaded_skills := r.loaded_skills.map (fun s =>
      { name := s.name, description := s.description, path := s.path })
    conversation_history := r.conversation_history }

/-- Embeds `AgentRuntime.from_dict` (context.py lines 53-77): skills are
reconstructed from metadata with empty content. -/
def AgentRuntime.from_dict (d : SessionDict) : AgentRuntime :=
  { session_id := d.session_id
    work_dir := d.work_dir
    token_count := d.token_count
    max_tokens := d.max_tokens
    ratio_of_compress := d.ratio_of_compress
    keep_last_n_messages := d.keep_last_n_messages
    system_prompt := d.system_prompt
    loaded_skills := d.loaded_skills.map (fun s =>
      { name := s.name, description := s.description, content := "",
        path := s.path })
    conversation_history := d.conversation_history }

/-- Token contribution of one message in `ContextManager.count_tokens`
(context.py lines 262-277): content tokens plus, per tool call, name and
argument tokens, each guarded by Python truthiness of the string. `enc`
stands for the external tiktoken encoding
(`len(self.encoding.encode(text))`). -/
def count_message_tokens (enc : String → Nat) (m : Message) : Nat :=
  (if m.content ≠ "" then enc m.content else 0) +
    m.tool_calls.foldl (fun acc tc =>
      acc + (if tc.function_name ≠ "" then enc tc.function_name else 0) +
        (if tc.function_arguments ≠ "" then enc tc.function_arguments else 0))
      0

/-- Embeds `ContextManager.count_tokens` (context.py lines 253-279): the
running total over the history is the sum of per-message contributions. -/
def ContextManager.count_tokens (enc : String → Nat)
    (history : List Message) : Nat :=
  (history.map (count_message_tokens enc)).sum

/-- Python `int()` applied to a rational: truncation toward zero. -/
def pyInt (q : Rat) : Int :=
  q.num / (q.den : Int)

/-- Embeds `ContextManager.should_compress` (context.py lines 281-289):
`token_count > int(max_tokens * ratio_of_compress)`. -/
def ContextManager.should_compress (r : AgentRuntime) : Bool :=
  (r.token_count : Int) > pyInt ((r.max_tokens : Rat) * r.ratio_of_compress)

/-- Embeds `ContextManager.clear_history` (context.py lines 248-251). -/
def ContextManager.clear_history (r : AgentRuntime) : AgentRuntime :=
  { r with conversation_history := [], token_count := 0 }

/-- Python slice `l[:-n]`; since `-0 = 0`, for `n = 0` this is `l[:0] = []`. -/
def pySliceUpToNeg {α : Type} (l : List α) (n : Nat) : List α :=
  if n = 0 then [] else l.take (l.length - n)

/-- Python slice `l[-n:]`; since `-0 = 0`, for `n = 0` this is `l[0:] = l`. -/
def pySliceFromNeg {α : Type} (l : List α) (n : Nat) : List α :=
  if n = 0 then l else l.drop (l.length - n)

/-- Python `str.capitalize()`: first character upper-cased, the rest
lower-cased. -/
def pyCapitalize (s : String) : String :=
  match s.data with
  | [] => ""
  | c :: rest => String.mk (c.toUpper :: rest.map Char.toLower)

/-- Embeds `ContextManager._build_summary_input` (context.py lines
408-430): tool messages and empty contents are skipped; assistant messages
with tool calls get a used-tools marker. -/
def build_summary_input (messages : List Message) : String :=
  String.intercalate "\n" (messages.filterMap (fun m =>
    if m.role = "tool" ∨ m.content = "" then none
    else if m.role = "assistant" ∧ m.tool_calls ≠ [] then
      some ("Assistant: " ++ m.content ++ " [使用了工具]")
    else
      some (pyCapitalize m.role ++ ": " ++ m.content)))

/-- The summarization response as compress_context reads it
(`response.content`). -/
structure SummaryResponse where
  content : Option String
  deriving Repr, DecidableEq

/-- The summarization client of compress_context: `None` models a missing
`llm_client`; the function models `llm_client.complete` on the summary
prompt and either returns a response or raises (which includes the
asyncio.run failure on the already-running-event-loop path, context.py
lines 343-355). -/
abbrev SummaryClient :=
  Option (List Message → Except PyErr SummaryResponse)

/-- The message list compress_context hands to the summarization client
(context.py lines 337-360): a summarizer system prompt and the transcript
of the prefix to be summarized. -/
def summaryPromptMessages (r : AgentRuntime) : List Message :=
  let summary_input := build_summary_input
    (pySliceUpToNeg r.conversation_history r.keep_last_n_messages)
  [{ role := "system", content := "你是一个对话摘要助手。" },
   { role := "user",
     content := "请对以下对话历史进行简洁的摘要，保留关键信息和上下文：\n\n" ++
       summary_input }]

/-- The synthetic messages compress_context prepends to the kept tail
(context.py lines 365-382): the tagged summary message when the summary is
non-empty, then a skill-metadata message when skills are loaded. -/
def summaryMessagesOf (r : AgentRuntime) (response : SummaryResponse) :
    List Message :=
  (match response.content with
    | some s =>
      if s ≠ "" then
        [{ role := "assistant", content := "[历史对话摘要] " ++ s,
           is_summary := true }]
      else []
    | none => []) ++
  (if r.loaded_skills ≠ [] then
    [{ role := "assistant",
       content := "[已加载技能] " ++
         String.intercalate ", " (r.loaded_skills.map Skill.name),
       is_metadata := true }]
  else [])

/-- Embeds `ContextManager.compress_context` (context.py lines 291-406).
Every fallible step is the client call, whose failure the source catches
into the keep-tail fallback; with no client the source clears the whole
history. Returns the updated runtime and the status message. -/
def ContextManager.compress_context (enc : String → Nat)
    (client : SummaryClient) (r : AgentRuntime) : AgentRuntime × String :=
  if r.conversation_history = [] then
    (r, "History is empty, nothing to compress.")
  else
    match client with
    | none =>
      let old_count := r.conversation_history.length
      (ContextManager.clear_history r,
        "Context cleared: " ++ toString old_count ++
          " messages removed (no LLM client for compression)")
    | some complete =>
      let keep_n := r.keep_last_n_messages
      if r.conversation_history.length ≤ keep_n then
        let old_tokens := r.token_count
        (ContextManager.clear_history r,
          "Context cleared: " ++ toString old_tokens ++
            " tokens removed (history too short to summarize)")
      else
        let messages_to_summarize := pySliceUpToNeg r.conversation_history keep_n
        let messages_to_keep := pySliceFromNeg r.conversation_history keep_n
        match complete (summaryPromptMessages r) with
        | Except.error e =>
          let r1 := { r with conversation_history := messages_to_keep }
          let r2 := { r1 with
            token_count := ContextManager.count_tokens enc r1.conversation_history }
          (r2, "Context compressed (fallback): kept last " ++ toString keep_n ++
            " messages only (summary failed: " ++ e.msg ++ ")")
        | Except.ok response =>
          let compressed_history :=
            summaryMessagesOf r response ++ messages_to_keep
          let old_token_count := r.token_count
          let r1 := { r with conversation_history := compressed_history }
          let r2 := { r1 with
            token_count := ContextManager.count_tokens enc r1.conversation_history }
          (r2, "Context compressed: " ++ toString old_token_count ++ " -> " ++
            toString r2.token_count ++ " tokens (kept last " ++
            toString keep_n ++ " messages, summarized " ++
            toString messages_to_summarize.length ++ " messages)")

/-- Embeds `ContextManager.add_message` (context.py lines 201-221): append
the message, recount tokens, then compress once if over threshold. The
compression is applied exactly once; the result is not re-checked. -/
def ContextManager.add_message (enc : String → Nat) (client : SummaryClient)
    (r : AgentRuntime) (role content : String)
    (tool_calls : List ToolCallJson := [])
    (tool_call_id : Option String := none) (name : Option String := none) :
    AgentRuntime :=
  let message : Message :=
    { role := role, content := content, tool_calls := tool_calls,
      tool_call_id := tool_call_id, name := name }
  let r1 := { r with
    conversation_history := r.conversation_history ++ [message] }
  let r2 := { r1 with
    token_count := ContextManager.count_tokens enc r1.conversation_history }
  if ContextManager.should_compress r2 then
    (ContextManager.compress_context enc client r2).1
  else r2

/-- Embeds `LLMToolCall` (llm/base.py lines 22-28). -/
structure LLMToolCall where
  id : String
  name : String
  arguments : String
  deriving Repr, DecidableEq

/-- Embeds `LLMResponse` (llm/base.py lines 31-42): `content` optional,
`tool_calls` defaulted to the empty list. -/
structure LLMResponse where
  content : Option String := none
  tool_calls : List LLMToolCall := []
  deriving Repr, DecidableEq

/-- The model client of the loop: `llm_client.complete(messages, tools)`. -/
abbrev CompleteFn := List Message → List OpenAIToolDef → LLMResponse

/-- Modelled from the spec: `ContextManager.process_a_message` is awaited by
`Agent.chat` (agent.py lines 256, 307-313, 317) but its definition is not
under src. Per the spec the loop appends the user message, one tool message
per result and the final reply as an assistant message to the conversation
state, so it is modelled as appending the message (the compression policy of
spec section 4.2 is embedded separately, from src, as `compress_context` and
`add_message`). -/
def ContextManager.process_a_message (r : AgentRuntime)
    (role content : String) (tool_call_id : Option String := none)
    (name : Option String := none) : AgentRuntime :=
  { r with conversation_history := r.conversation_history ++
      [{ role := role, content := content, tool_call_id := tool_call_id,
         name := name }] }

/-- Embeds `ToolManager.execute_tool_calls` (tool.py lines 308-364) on the
unified `LLMToolCall` format: parse the argument JSON (empty dict on a parse
error), execute, and wrap each result as a tool-role message. `parse`
stands for the external `json.loads` and `dumps` for `json.dumps`. -/
def ToolManager.execute_tool_calls (parse : String → Option Args)
    (dumps : Args → String) (tm : ToolManager)
    (tool_calls : List LLMToolCall) : List Message :=
  tool_calls.map (fun tc =>
    let arguments := (parse tc.arguments).getD []
    let result := tm.execute tc.name arguments
    { role := "tool", tool_call_id := some tc.id, name := some tc.name,
      content := ToolResult.to_display_string dumps result })

/-- The assistant message recorded for a completion that carries tool calls
(agent.py lines 273-288): `content or ""` plus the tool calls in OpenAI
shape. -/
def assistantMessageOf (response : LLMResponse) : Message :=
  { role := "assistant", content := response.content.getD "",
    tool_calls := response.tool_calls.map (fun tc =>
      { id := tc.id, type := "function", function_name := tc.name,
        function_arguments := tc.arguments }) }

/-- The per-result append loop of `Agent.chat` (agent.py lines 300-313):
each formatted tool result is handed to process_a_message as a tool-role
message. -/
def appendToolResults (r : AgentRuntime) (msgs : List Message) :
    AgentRuntime :=
  msgs.foldl (fun acc tr =>
    ContextManager.process_a_message acc "tool" tr.content tr.tool_call_id
      tr.name) r

/-- The fixed iteration bound, `self.max_iterations = 100`
(agent.py line 138). -/
def maxIterations : Nat := 100

/-- Embeds the for-loop of `Agent.chat` (agent.py lines 262-315) with the
remaining iteration count as fuel: at fuel 0 the for-else clause yields the
fixed iteration-limit reply; otherwise one completion is requested, and
either its content becomes the reply (no tool calls) or the assistant
message plus one tool message per executed call are appended and the loop
recurses. -/
def Agent.chat_loop (complete : CompleteFn) (parse : String → Option Args)
    (dumps : Args → String) (tm : ToolManager)
    (tools : List OpenAIToolDef) :
    Nat → AgentRuntime → String × AgentRuntime
  | 0, r => ("Too many tool calls, please try again later.", r)
  | fuel + 1, r =>
    let response := complete r.conversation_history tools
    if response.tool_calls = [] then
      (response.content.getD "", r)
    else
      let r1 := { r with
        conversation_history :=
          r.conversation_history ++ [assistantMessageOf response] }
      let r2 := appendToolResults r1
        (ToolManager.execute_tool_calls parse dumps tm response.tool_calls)
      Agent.chat_loop complete parse dumps tm tools fuel r2

/-- Embeds `Agent.chat` (agent.py lines 232-319): append the user message,
resolve the tool definitions from the enabled-tool list, run the loop, then
append the final reply as an assistant message and return it. The
enabled-tool list is the `runtime.enabled_tools` the source passes at line
259, taken here as a parameter (the AgentRuntime dataclass in the snapshot
has drifted and lacks that field). -/
def Agent.chat (complete : CompleteFn) (parse : String → Option Args)
    (dumps : Args → String) (tm : ToolManager) (enabled_tools : List String)
    (r : AgentRuntime) (user_input : String) : String × AgentRuntime :=
  let r0 := ContextManager.process_a_message r "user" user_input
  let tools := Agent.get_tool_definitions tm enabled_tools
  let out := Agent.chat_loop complete parse dumps tm tools maxIterations r0
  let r2 := ContextManager.process_a_message out.2 "assistant" out.1
  (out.1, r2)

/-- Per-session metadata entry of `InteractionManager.session_metadata`. -/
structure SessionMeta where
  name : String
  created_at : String
  last_active : String
  deriving Repr, DecidableEq

/-- The JSON record written to `sessions_dir/{session_id}.json`
(manager.py lines 103-109); `runtime` is none when the key is missing or
the empty dict. -/
structure SessionFileData where
  session_id : String
  name : String
  created_at : String
  last_active : String
  runtime : Option SessionDict
  deriving Repr, DecidableEq

/-- Process-wide defaults from `load_config`, used by `_load_session` when
a record has no runtime data. -/
structure Config where
  work_dir : String := ""
  max_tokens : Nat := 200000
  ratio_of_compress : Rat := 7 / 10
  keep_last_n_messages : Nat := 3
  deriving Repr, DecidableEq

/-- The registry state of `InteractionManager`: the active session id, the
metadata map, and the session files on disk, both keyed by session id. -/
structure InteractionState where
  current_session_id : Option String := none
  session_metadata : List (String × SessionMeta) := []
  files : List (String × SessionFileData) := []
  deriving Repr, DecidableEq

/-- Embeds `InteractionManager._save_session` (manager.py lines 87-117):
the current runtime is serialized and the session file overwritten
wholesale; `now` stands for `datetime.now().isoformat()`. -/
def InteractionManager.save_session (st : InteractionState)
    (rt : AgentRuntime) (session_id : String) (now : String) :
    InteractionState :=
  let md := dictGet st.session_metadata session_id
  let data : SessionFileData :=
    { session_id := session_id
      name := match md with
        | some m => m.name
        | none => session_id
      created_at := match md with
        | some m => m.created_at
        | none => now
      last_active := now
      runtime := some rt.to_dict }
  { st with files := dictSet st.files session_id data }

/-- Embeds `InteractionManager._load_session` (manager.py lines 119-164):
none when the file is missing; otherwise the metadata entry is refreshed
and the runtime is deserialized (its session_id forced to the looked-up
id), or rebuilt from config defaults when the record has no runtime data. -/
def InteractionManager.load_session (config : Config) (st : InteractionState)
    (session_id : String) : Option (InteractionState × AgentRuntime) :=
  match dictGet st.files session_id with
  | none => none
  | some data =>
    let st1 := { st with
      session_metadata := dictSet st.session_metadata session_id
        { name := data.name, created_at := data.created_at,
          last_active := data.last_active } }
    let rt := match data.runtime with
      | some d => { AgentRuntime.from_dict d with session_id := session_id }
      | none =>
        { session_id := session_id, work_dir := config.work_dir,
          max_tokens := config.max_tokens,
          ratio_of_compress := config.ratio_of_compress,
          keep_last_n_messages := config.keep_last_n_messages }
    some (st1, rt)

/-- Embeds `InteractionManager._resolve_session_name` (manager.py lines
170-189): a known session id resolves to itself, otherwise the first
session whose metadata name matches. -/
def InteractionManager.resolve_session_name (st : InteractionState)
    (name : String) : Option String :=
  if (dictGet st.session_metadata name).isSome then some name
  else (st.session_metadata.find? (fun p => p.2.name = name)).map Prod.fst

/-- The while-loop of `_resolve_duplicate_name` (`while base-counter in
existing: counter += 1`), embedded with fuel; among any `existing.length + 1`
consecutive candidates at least one is outside `existing`, so the fuel used
by `resolve_duplicate_name` below never runs out. -/
def findFreeSuffix (existing : List String) (base : String) :
    Nat → Nat → Nat
  | 0, counter => counter
  | fuel + 1, counter =>
    if (base ++ "-" ++ toString counter) ∈ existing then
      findFreeSuffix existing base fuel (counter + 1)
    else counter

/-- Embeds `InteractionManager._resolve_duplicate_name` (manager.py lines
367-379): return the base name when unused, else the name with the first
free numeric suffix starting from 1. -/
def InteractionManager.resolve_duplicate_name
    (metadata : List (String × SessionMeta)) (base_name : String) : String :=
  let existing := metadata.map (fun p => p.2.name)
  if base_name ∉ existing then base_name
  else
    base_name ++ "-" ++
      toString (findFreeSuffix existing base_name (existing.length + 1) 1)

/-- Embeds `InteractionManager.hook_rename_session` (manager.py lines
493-519): no args or no active session are refused; a name collision is
refused with an advisory message naming the suffixed alternative; otherwise
the metadata name is updated and the session saved. -/
def InteractionManager.hook_rename_session (st : InteractionState)
    (rt : AgentRuntime) (args : List String) (now : String) :
    String × InteractionState :=
  match args with
  | [] => ("Usage: /rename <new_name>", st)
  | new_name :: _ =>
    match st.current_session_id with
    | none => ("No active session to rename.", st)
    | some sid =>
      let resolved_name :=
        InteractionManager.resolve_duplicate_name st.session_metadata new_name
      if resolved_name ≠ new_name then
        ("Name " ++ sq ++ new_name ++ sq ++ " already exists. Use " ++ sq ++
          resolved_name ++ sq ++ " instead or choose a different name.", st)
      else
        match dictGet st.session_metadata sid with
        | some md =>
          let md1 : SessionMeta := { md with name := new_name }
          let st1 : InteractionState :=
            { st with session_metadata := dictSet st.session_metadata sid md1 }
          let st2 := InteractionManager.save_session st1 rt sid now
          ("Renamed session to: " ++ new_name, st2)
        | none => ("Failed to rename session.", st)

/-- Embeds `InteractionManager.hook_delete_session` (manager.py lines
460-491): deleting the active session is refused before any mutation;
otherwise the session file is unlinked and the metadata entry popped. -/
def InteractionManager.hook_delete_session (st : InteractionState)
    (args : List String) : String × InteractionState :=
  match args with
  | [] => ("Usage: /delete <session_name_or_id>", st)
  | target :: _ =>
    match InteractionManager.resolve_session_name st target with
    | none => ("Session " ++ sq ++ target ++ sq ++ " not found.", st)
    | some session_id =>
      if st.current_session_id = some session_id then
        ("Cannot delete the current active session. Switch to another session first.",
          st)
      else
        let st1 := { st with files := dictDel st.files session_id }
        let name := match dictGet st.session_metadata session_id with
          | some m => m.name
          | none => session_id
        let st2 := { st1 with
          session_metadata := dictDel st1.session_metadata session_id }
        ("Deleted session: " ++ name, st2)

/-- Embeds the model path of `InteractionManager.handle_request`
(manager.py lines 234-246) for non-hook input, for which the hook
dispatcher returns none: run `Agent.chat`, then auto-save the current
session. -/
def InteractionManager.handle_chat_request (complete : CompleteFn)
    (parse : String → Option Args) (dumps : Args → String)
    (tm : ToolManager) (enabled_tools : List String) (st : InteractionState)
    (current_session_id : String) (rt : AgentRuntime) (text : String)
    (now : String) : String × InteractionState × AgentRuntime :=
  let out := Agent.chat complete parse dumps tm enabled_tools rt text
  let st1 := InteractionManager.save_session st out.2 current_session_id now
  (out.1, st1, out.2)

/-! Helper lemmas shared by the claim theorems. -/

theorem find?_map_update {α : Type} (l : List (String × α)) (k : String)
    (v : α) (h : l.any (fun p => p.1 = k) = true) :
    (l.map (fun p => if p.1 = k then (k, v) else p)).find?
      (fun p => p.1 = k) = some (k, v) := by
  induction l with
  | nil => simp at h
  | cons a t ih =>
    by_cases ha : a.1 = k
    · simp [List.find?_cons, ha]
    · simp only [List.any_cons, Bool.or_eq_true, decide_eq_true_eq] at h
      have ht : t.any (fun p => p.1 = k) = true := by
        rcases h with h | h
        · exact absurd h ha
        · exact h
      simp [List.find?_cons, ha, ih ht]

theorem find?_append_fresh {α : Type} (l : List (String × α)) (k : String)
    (v : α) (h : l.any (fun p => p.1 = k) = false) :
    (l ++ [(k, v)]).find? (fun p => p.1 = k) = some (k, v) := by
  induction l with
  | nil => simp
  | cons a t ih =>
    simp only [List.any_cons, Bool.or_eq_false_iff, decide_eq_false_iff_not] at h
    simp [List.find?_cons, h.1, ih (by simpa using h.2)]

/-- Writing a key into a dict makes it readable back. -/
theorem dictGet_dictSet {α : Type} (l : List (String × α)) (k : String)
    (v : α) : dictGet (dictSet l k v) k = some v := by
  unfold dictSet dictGet
  by_cases h : l.any (fun p => p.1 = k) = true
  · simp [h, find?_map_update l k v h]
  · simp only [Bool.not_eq_true] at h
    simp [h, find?_append_fresh l k v h]

/-- Token counting is additive over history concatenation. -/
theorem count_tokens_append (enc : String → Nat) (l1 l2 : List Message) :
    ContextManager.count_tokens enc (l1 ++ l2) =
      ContextManager.count_tokens enc l1 +
        ContextManager.count_tokens enc l2 := by
  simp [ContextManager.count_tokens]

/-- The two Python slices `l[:-n]` and `l[-n:]` partition the list. -/
theorem pySlice_append {α : Type} (l : List α) (n : Nat) :
    pySliceUpToNeg l n ++ pySliceFromNeg l n = l := by
  unfold pySliceUpToNeg pySliceFromNeg
  by_cases h : n = 0
  · simp [h]
  · simp [h, List.take_append_drop]

/-- When every completion carries tool calls, the loop always ends in the
fixed iteration-limit reply. -/
theorem chat_loop_all_tool_calls (complete : CompleteFn)
    (parse : String → Option Args) (dumps : Args → String)
    (tm : ToolManager) (tools : List OpenAIToolDef)
    (h : ∀ msgs tl, (complete msgs tl).tool_calls ≠ []) (fuel : Nat) :
    ∀ r, (Agent.chat_loop complete parse dumps tm tools fuel r).1 =
      "Too many tool calls, please try again later." := by
  induction fuel with
  | zero => intro r; rfl
  | succ n ih =>
    intro r
    unfold Agent.chat_loop
    simp only [h r.conversation_history tools, if_neg]
    exact ih _

/-- The explicit-list branch of `_get_tool_definitions` filters the name
list against the registry. -/
theorem get_tool_defs_go (tm : ToolManager) (names : List String)
    (acc : List OpenAIToolDef) :
    names.foldl (fun acc name =>
      if tm.has_tool name then
        match tm.get_tool name with
        | some t => acc ++ [t.to_openai_format]
        | none => acc
      else acc) acc
    = acc ++ names.filterMap
        (fun n => (tm.get_tool n).map Tool.to_openai_format) := by
  induction names generalizing acc with
  | nil => simp
  | cons n rest ih =>
    simp only [List.foldl_cons, List.filterMap_cons]
    cases hgt : tm.get_tool n with
    | none =>
      have hh : tm.has_tool n = false := by
        simp [ToolManager.has_tool, hgt]
      simp [hh, hgt, ih]
    | some t =>
      have hh : tm.has_tool n = true := by
        simp [ToolManager.has_tool, hgt]
      simp [hh, hgt, ih]

/-- Appending formatted tool results through process_a_message appends
exactly those tool messages to the history. -/
theorem appendToolResults_execute_history (parse : String → Option Args)
    (dumps : Args → String) (tm : ToolManager) (calls : List LLMToolCall)
    (r : AgentRuntime) :
    (appendToolResults r
      (ToolManager.execute_tool_calls parse dumps tm calls)).conversation_history =
      r.conversation_history ++
        ToolManager.execute_tool_calls parse dumps tm calls := by
  induction calls generalizing r with
  | nil => simp [appendToolResults, ToolManager.execute_tool_calls]
  | cons c rest ih =>
    simp only [ToolManager.execute_tool_calls, List.map_cons] at *
    simp only [appendToolResults, List.foldl_cons] at *
    rw [ih]
    simp [ContextManager.process_a_message]

/-! Concrete fixtures used by witnesses and counterexamples. -/

/-- A registered tool whose handler raises (as `FileNotFoundError` would). -/
def wTool1 : Tool :=
  { name := "Read", description := "Read file contents", parameters := "",
    handler := fun _ => Except.error
      { msg := "No such file or directory: x",
        tb := "Traceback (most recent call last): ..." } }

/-- A second registered tool with a succeeding handler. -/
def wTool2 : Tool :=
  { name := "bash", description := "Run a command", parameters := "",
    handler := fun _ => Except.ok "done" }

/-- A registry holding the two fixture tools. -/
def wTM : ToolManager :=
  (ToolManager.register { tools := [] } wTool1).register wTool2

/-- A registry state with two sessions, the active one named bar. -/
def wState : InteractionState :=
  { current_session_id := some "s2",
    session_metadata :=
      [("s1", { name := "foo", created_at := "c1", last_active := "t1" }),
       ("s2", { name := "bar", created_at := "c2", last_active := "t2" })],
    files := [("s1",
      { session_id := "s1", name := "foo", created_at := "c1",
        last_active := "t1", runtime := none })] }

/-! Claim theorems. -/

/-- C1: the tool schema set is resolved from the enabled-tool list: the
sentinel list ["all"] yields exactly the registered tools in OpenAI format,
the empty list yields no tools, and an explicit name list is filtered
against the registry, unknown names silently dropped. -/
theorem C1_tool_schema_resolution (tm : ToolManager) (names : List String)
    (h1 : names ≠ ["all"]) (h2 : names ≠ []) :
    Agent.get_tool_definitions tm ["all"] =
      tm.list_tools.map Tool.to_openai_format ∧
    Agent.get_tool_definitions tm [] = [] ∧
    Agent.get_tool_definitions tm names =
      names.filterMap (fun n => (tm.get_tool n).map Tool.to_openai_format) := by
  refine ⟨rfl, rfl, ?_⟩
  unfold Agent.get_tool_definitions
  simp [h1, h2, get_tool_defs_go]

/-- Witness for C1 at a concrete registry and the name list
[read, nosuch]. -/
theorem C1_tool_schema_resolution_witness :
    (["read", "nosuch"] : List String) ≠ ["all"] ∧
    (["read", "nosuch"] : List String) ≠ [] ∧
    (Agent.get_tool_definitions wTM ["all"] =
        wTM.list_tools.map Tool.to_openai_format ∧
      Agent.get_tool_definitions wTM [] = [] ∧
      Agent.get_tool_definitions wTM ["read", "nosuch"] =
        (["read", "nosuch"] : List String).filterMap
          (fun n => (wTM.get_tool n).map Tool.to_openai_format)) :=
  ⟨by decide, by decide,
    C1_tool_schema_resolution wTM ["read", "nosuch"] (by decide) (by decide)⟩

/-- C10: executing an unregistered tool name returns (never raises) a
failed ToolResult whose error names the missing tool and lists every
registered name; lookup is case-insensitive because names are lower-cased
both on registration and on lookup. -/
theorem C10_unknown_tool_execute (tm : ToolManager) (name : String)
    (args : Args) (n1 n2 : String) (t : Tool)
    (h : tm.get_tool name = none) (hlow : pyLower n1 = pyLower n2) :
    tm.execute name args =
      { success := false, tool_name := name, arguments := args,
        result := none,
        error := some ("Tool " ++ sq ++ name ++ sq ++
          " not found. Available: " ++ String.intercalate ", " tm.keys) } ∧
    tm.get_tool n1 = tm.get_tool n2 ∧
    (tm.register t).get_tool t.name = some t := by
  refine ⟨?_, ?_, ?_⟩
  · simp [ToolManager.execute, h]
  · simp [ToolManager.get_tool, hlow]
  · simp [ToolManager.get_tool, ToolManager.register, dictGet_dictSet]

/-- Witness for C10: the fixture registry, the unknown name Write, and the
case-folding pair ReAd / read. -/
theorem C10_unknown_tool_execute_witness :
    ToolManager.get_tool wTM "Write" = none ∧
    pyLower "ReAd" = pyLower "read" ∧
    (ToolManager.execute wTM "Write" [("path", "x")] =
        { success := false, tool_name := "Write",
          arguments := [("path", "x")], result := none,
          error := some ("Tool " ++ sq ++ "Write" ++ sq ++
            " not found. Available: " ++
            String.intercalate ", " wTM.keys) } ∧
      wTM.get_tool "ReAd" = wTM.get_tool "read" ∧
      (wTM.register wTool1).get_tool wTool1.name = some wTool1) :=
  ⟨by rfl, by decide,
    C10_unknown_tool_execute wTM "Write" [("path", "x")] "ReAd" "read" wTool1
      (by rfl) (by decide)⟩

/-- C9: dispatching the delete hook on a target that resolves to the
currently active session is refused with the fixed message, and the
registry state (metadata map and stored session files) is returned
unchanged. -/
theorem C9_delete_active_refused (st : InteractionState) (target sid : String)
    (h1 : InteractionManager.resolve_session_name st target = some sid)
    (h2 : st.current_session_id = some sid) :
    InteractionManager.hook_delete_session st [target] =
      ("Cannot delete the current active session. Switch to another session first.",
        st) := by
  unfold InteractionManager.hook_delete_session
  simp [h1, h2]

/-- Witness for C9: deleting the active session (by its name bar). -/
theorem C9_delete_active_refused_witness :
    InteractionManager.resolve_session_name wState "bar" = some "s2" ∧
    wState.current_session_id = some "s2" ∧
    InteractionManager.hook_delete_session wState ["bar"] =
      ("Cannot delete the current active session. Switch to another session first.",
        wState) :=
  ⟨by decide, rfl, C9_delete_active_refused wState "bar" "s2" (by decide) rfl⟩

/-- C8 counterexample: renaming the active session to the name of another
session (foo) is refused — the returned state is unchanged and the active
session keeps its name bar instead of being renamed to foo-1 as the claim
asserts. -/
theorem C8_rename_collision_counterexample :
    InteractionManager.hook_rename_session wState {} ["foo"] "t3" =
      ("Name " ++ sq ++ "foo" ++ sq ++ " already exists. Use " ++ sq ++
        "foo-1" ++ sq ++ " instead or choose a different name.", wState) ∧
    (dictGet wState.session_metadata "s2").map SessionMeta.name =
      some "bar" := by
  constructor
  · rfl
  · rfl

/-- C8 (amended): dispatching the rename hook with a target name already
used refuses the rename: the registry state is unchanged and the message is
an advisory naming the requested name with the first free numeric suffix
appended (suffix-renaming is performed only by the new-session hook). -/
theorem C8_rename_collision_refused (st : InteractionState)
    (rt : AgentRuntime) (new_name : String) (rest : List String)
    (now sid : String) (hcur : st.current_session_id = some sid)
    (hcoll : InteractionManager.resolve_duplicate_name st.session_metadata
      new_name ≠ new_name) :
    InteractionManager.hook_rename_session st rt (new_name :: rest) now =
      ("Name " ++ sq ++ new_name ++ sq ++ " already exists. Use " ++ sq ++
        InteractionManager.resolve_duplicate_name st.session_metadata
          new_name ++ sq ++ " instead or choose a different name.", st) := by
  unfold InteractionManager.hook_rename_session
  simp [hcur, hcoll]

/-- Witness for the amended C8 at the two-session fixture. -/
theorem C8_rename_collision_refused_witness :
    wState.current_session_id = some "s2" ∧
    InteractionManager.resolve_duplicate_name wState.session_metadata "foo" ≠
      "foo" ∧
    InteractionManager.hook_rename_session wState {} ["foo"] "t3" =
      ("Name " ++ sq ++ "foo" ++ sq ++ " already exists. Use " ++ sq ++
        InteractionManager.resolve_duplicate_name wState.session_metadata
          "foo" ++ sq ++ " instead or choose a different name.", wState) :=
  ⟨rfl, by decide,
    C8_rename_collision_refused wState {} "foo" [] "t3" "s2" rfl (by decide)⟩

/-- C7: saving a session and then loading by its session id yields a
runtime whose conversation history, token-budget parameters and session id
are identical to the original. -/
theorem C7_save_load_roundtrip (config : Config) (st : InteractionState)
    (rt : AgentRuntime) (now : String) :
    ∃ st1 rt1,
      InteractionManager.load_session config
        (InteractionManager.save_session st rt rt.session_id now)
        rt.session_id = some (st1, rt1) ∧
      rt1.conversation_history = rt.conversation_history ∧
      rt1.max_tokens = rt.max_tokens ∧
      rt1.ratio_of_compress = rt.ratio_of_compress ∧
      rt1.keep_last_n_messages = rt.keep_last_n_messages ∧
      rt1.session_id = rt.session_id := by
  unfold InteractionManager.load_session InteractionManager.save_session
  rw [dictGet_dictSet]
  exact ⟨_, _, rfl, rfl, rfl, rfl, rfl, rfl⟩

/-- One unfolding of the loop when the completion carries no tool calls:
the reply is `content or ""` and the state is untouched. -/
theorem chat_loop_no_tool_calls (complete : CompleteFn)
    (parse : String → Option Args) (dumps : Args → String)
    (tm : ToolManager) (tools : List OpenAIToolDef) (fuel : Nat)
    (r : AgentRuntime) (resp : LLMResponse)
    (hresp : complete r.conversation_history tools = resp)
    (hnone : resp.tool_calls = []) :
    Agent.chat_loop complete parse dumps tm tools (fuel + 1) r =
      (resp.content.getD "", r) := by
  simp only [Agent.chat_loop, hresp, hnone, if_pos]

/-- C2: a raising tool handler is captured into a failed ToolResult with a
non-empty error, converted into a tool-role message appended to the
conversation history, and the loop proceeds to another model call instead
of aborting. -/
theorem C2_tool_failure_captured (tm : ToolManager) (t : Tool) (e : PyErr)
    (tc : LLMToolCall) (parse : String → Option Args)
    (dumps : Args → String) (complete : CompleteFn)
    (tools : List OpenAIToolDef) (fuel : Nat) (r : AgentRuntime)
    (resp : LLMResponse)
    (hget : tm.get_tool tc.name = some t)
    (hraise : t.handler ((parse tc.arguments).getD []) = Except.error e)
    (hresp : complete r.conversation_history tools = resp)
    (hcalls : resp.tool_calls ≠ []) :
    (tm.execute tc.name ((parse tc.arguments).getD [])).success = false ∧
    (tm.execute tc.name ((parse tc.arguments).getD [])).error =
      some (e.msg ++ "\n" ++ e.tb) ∧
    e.msg ++ "\n" ++ e.tb ≠ "" ∧
    ToolManager.execute_tool_calls parse dumps tm [tc] =
      [{ role := "tool", tool_call_id := some tc.id, name := some tc.name,
         content := ToolResult.to_display_string dumps
           (tm.execute tc.name ((parse tc.arguments).getD [])) }] ∧
    (appendToolResults r
        (ToolManager.execute_tool_calls parse dumps tm resp.tool_calls)).conversation_history
      = r.conversation_history ++
          ToolManager.execute_tool_calls parse dumps tm resp.tool_calls ∧
    Agent.chat_loop complete parse dumps tm tools (fuel + 1) r =
      Agent.chat_loop complete parse dumps tm tools fuel
        (appendToolResults
          ({ r with conversation_history :=
              r.conversation_history ++ [assistantMessageOf resp] })
          (ToolManager.execute_tool_calls parse dumps tm resp.tool_calls)) := by
  refine ⟨?_, ?_, ?_, ?_, ?_, ?_⟩
  · simp [ToolManager.execute, hget, hraise]
  · simp [ToolManager.execute, hget, hraise]
  · intro h0
    apply_fun String.length at h0
    simp [String.length_append] at h0
    exact absurd h0.1.2 (by decide)
  · rfl
  · exact appendToolResults_execute_history parse dumps tm resp.tool_calls r
  · simp only [Agent.chat_loop, hresp]
    rw [if_neg hcalls]

/-- The completion used by the C2 witness: always requests the read tool. -/
def c2Complete : CompleteFn :=
  fun _ _ => { content := none,
               tool_calls := [{ id := "1", name := "read",
                                arguments := "x" }] }

/-- Witness for C2: the fixture read tool raising on args path = x inside a
one-call completion. -/
theorem C2_tool_failure_captured_witness :
    wTM.get_tool "read" = some wTool1 ∧
    wTool1.handler (((fun (_ : String) =>
      some [("path", "x")]) "x").getD []) = Except.error
      { msg := "No such file or directory: x",
        tb := "Traceback (most recent call last): ..." } ∧
    c2Complete ({} : AgentRuntime).conversation_history [] =
      { content := none,
        tool_calls := [{ id := "1", name := "read", arguments := "x" }] } ∧
    ({ content := none,
       tool_calls := [{ id := "1", name := "read", arguments := "x" }] }
      : LLMResponse).tool_calls ≠ [] ∧
    (wTM.execute "read" (((fun (_ : String) =>
        some [("path", "x")]) "x").getD [])).success = false := by
  refine ⟨by rfl, by rfl, by rfl, by decide, ?_⟩
  exact (C2_tool_failure_captured wTM wTool1
    { msg := "No such file or directory: x",
      tb := "Traceback (most recent call last): ..." }
    { id := "1", name := "read", arguments := "x" }
    (fun _ => some [("path", "x")]) (fun _ => "") c2Complete [] 3
    ({} : AgentRuntime)
    { content := none,
      tool_calls := [{ id := "1", name := "read", arguments := "x" }] }
    (by rfl) (by rfl) (by rfl) (by decide)).1

/-- C3: with tool calls on every iteration the loop terminates after the
fixed bound of 100 iterations, the fixed iteration-limit message is the
final reply, it is appended as an assistant message, and the session is
still saved. -/
theorem C3_iteration_limit (complete : CompleteFn)
    (parse : String → Option Args) (dumps : Args → String)
    (tm : ToolManager) (enabled_tools : List String)
    (st : InteractionState) (sid : String) (rt : AgentRuntime)
    (text now : String)
    (h : ∀ msgs tl, (complete msgs tl).tool_calls ≠ []) :
    maxIterations = 100 ∧
    (Agent.chat complete parse dumps tm enabled_tools rt text).1 =
      "Too many tool calls, please try again later." ∧
    (Agent.chat complete parse dumps tm enabled_tools
        rt text).2.conversation_history.getLast?
      = some { role := "assistant",
               content := "Too many tool calls, please try again later." } ∧
    (dictGet (InteractionManager.handle_chat_request complete parse dumps tm
        enabled_tools st sid rt text now).2.1.files sid).map
      SessionFileData.runtime =
      some (some (Agent.chat complete parse dumps tm enabled_tools
        rt text).2.to_dict) := by
  have hloop := chat_loop_all_tool_calls complete parse dumps tm
    (Agent.get_tool_definitions tm enabled_tools) h maxIterations
    (ContextManager.process_a_message rt "user" text)
  have h1 : (Agent.chat complete parse dumps tm enabled_tools rt text).1 =
      (Agent.chat_loop complete parse dumps tm
        (Agent.get_tool_definitions tm enabled_tools) maxIterations
        (ContextManager.process_a_message rt "user" text)).1 := rfl
  have h2 : (Agent.chat complete parse dumps tm enabled_tools rt text).2 =
      ContextManager.process_a_message
        (Agent.chat_loop complete parse dumps tm
          (Agent.get_tool_definitions tm enabled_tools) maxIterations
          (ContextManager.process_a_message rt "user" text)).2
        "assistant"
        (Agent.chat_loop complete parse dumps tm
          (Agent.get_tool_definitions tm enabled_tools) maxIterations
          (ContextManager.process_a_message rt "user" text)).1 := rfl
  refine ⟨rfl, ?_, ?_, ?_⟩
  · rw [h1, hloop]
  · rw [h2, hloop]
    simp [ContextManager.process_a_message]
  · simp [InteractionManager.handle_chat_request,
      InteractionManager.save_session, dictGet_dictSet]

/-- Witness for C3: a completion that always requests one tool call. -/
theorem C3_iteration_limit_witness :
    (∀ msgs tl, (c2Complete msgs tl).tool_calls ≠ []) ∧
    (Agent.chat c2Complete (fun _ => none) (fun _ => "") wTM ["all"]
      ({} : AgentRuntime) "hello").1 =
      "Too many tool calls, please try again later." :=
  ⟨by intro msgs tl; simp [c2Complete],
    (C3_iteration_limit c2Complete (fun _ => none) (fun _ => "") wTM ["all"]
      wState "s2" ({} : AgentRuntime) "hello" "t9"
      (by intro msgs tl; simp [c2Complete])).2.1⟩

/-- C4 (amended): whenever the model returns no tool calls its content is
the final reply of the turn; when the content is empty the final reply is
the empty string (the code has no fallback text); in either case the reply
is appended to the history as an assistant message. -/
theorem C4_no_tool_calls_reply (complete : CompleteFn)
    (parse : String → Option Args) (dumps : Args → String)
    (tm : ToolManager) (enabled_tools : List String) (r : AgentRuntime)
    (user_input : String) (resp : LLMResponse)
    (hresp : complete
      (ContextManager.process_a_message r "user"
        user_input).conversation_history
      (Agent.get_tool_definitions tm enabled_tools) = resp)
    (hnone : resp.tool_calls = []) :
    (Agent.chat complete parse dumps tm enabled_tools r user_input).1 =
      resp.content.getD "" ∧
    (resp.content = none →
      (Agent.chat complete parse dumps tm enabled_tools r user_input).1
        = "") ∧
    (Agent.chat complete parse dumps tm enabled_tools
        r user_input).2.conversation_history.getLast?
      = some { role := "assistant", content := resp.content.getD "" } := by
  have hloop : Agent.chat_loop complete parse dumps tm
      (Agent.get_tool_definitions tm enabled_tools) maxIterations
      (ContextManager.process_a_message r "user" user_input) =
      (resp.content.getD "",
        ContextManager.process_a_message r "user" user_input) :=
    chat_loop_no_tool_calls complete parse dumps tm
      (Agent.get_tool_definitions tm enabled_tools) 99
      (ContextManager.process_a_message r "user" user_input) resp hresp hnone
  have h1 : (Agent.chat complete parse dumps tm enabled_tools r user_input).1 =
      (Agent.chat_loop complete parse dumps tm
        (Agent.get_tool_definitions tm enabled_tools) maxIterations
        (ContextManager.process_a_message r "user" user_input)).1 := rfl
  have h2 : (Agent.chat complete parse dumps tm enabled_tools
      r user_input).2 =
      ContextManager.process_a_message
        (Agent.chat_loop complete parse dumps tm
          (Agent.get_tool_definitions tm enabled_tools) maxIterations
          (ContextManager.process_a_message r "user" user_input)).2
        "assistant"
        (Agent.chat_loop complete parse dumps tm
          (Agent.get_tool_definitions tm enabled_tools) maxIterations
          (ContextManager.process_a_message r "user" user_input)).1 := rfl
  refine ⟨?_, ?_, ?_⟩
  · rw [h1, hloop]
  · intro hc
    rw [h1, hloop, hc]
    rfl
  · rw [h2, hloop]
    simp [ContextManager.process_a_message]

/-- The completion used by the C4 counterexample: no tool calls, no
content. -/
def c4Complete : CompleteFn :=
  fun _ _ => { content := none, tool_calls := [] }

/-- C4 counterexample: with empty completion content the final reply of
the turn is the empty string, not the fixed no-response fallback text the
claim asserts. -/
theorem C4_fallback_counterexample :
    (Agent.chat c4Complete (fun _ => none) (fun _ => "")
      ({ tools := [] } : ToolManager) [] ({} : AgentRuntime) "hi").1 = "" ∧
    ("" : String) ≠ "no response generated" := by
  constructor
  · rfl
  · decide

/-- Witness for the amended C4 at the empty-content completion. -/
theorem C4_no_tool_calls_reply_witness :
    c4Complete
      (ContextManager.process_a_message ({} : AgentRuntime) "user"
        "hi").conversation_history
      (Agent.get_tool_definitions ({ tools := [] } : ToolManager) []) =
      { content := none, tool_calls := [] } ∧
    ({ content := none, tool_calls := [] } : LLMResponse).tool_calls = [] ∧
    (Agent.chat c4Complete (fun _ => none) (fun _ => "")
      ({ tools := [] } : ToolManager) [] ({} : AgentRuntime) "hi").1 =
      ({ content := none, tool_calls := [] } : LLMResponse).content.getD "" :=
  ⟨by rfl, by rfl,
    (C4_no_tool_calls_reply c4Complete (fun _ => none) (fun _ => "")
      ({ tools := [] } : ToolManager) [] ({} : AgentRuntime) "hi"
      { content := none, tool_calls := [] } (by rfl) (by rfl)).1⟩

/-- A five-message history with the default token parameters
(keep_last_n_messages 3). -/
def c5Runtime : AgentRuntime :=
  { session_id := "s",
    conversation_history :=
      [{ role := "user", content := "a" },
       { role := "assistant", content := "b" },
       { role := "user", content := "c" },
       { role := "assistant", content := "d" },
       { role := "user", content := "e" }] }

/-- C5 counterexample: with no model client configured, compression clears
the entire history instead of degrading to keeping only the last
keep_last_n messages as the claim asserts. -/
theorem C5_no_client_counterexample :
    (ContextManager.compress_context (fun s => s.length) none
      c5Runtime).1.conversation_history = [] ∧
    pySliceFromNeg c5Runtime.conversation_history
      c5Runtime.keep_last_n_messages ≠ [] ∧
    (ContextManager.compress_context (fun s => s.length) none
        c5Runtime).1.conversation_history ≠
      pySliceFromNeg c5Runtime.conversation_history
        c5Runtime.keep_last_n_messages := by
  refine ⟨rfl, by decide, by decide⟩

/-- A four-message over-threshold runtime (zero token budget) used to show
compression does not re-trigger after reducing history. -/
def c5aRuntime : AgentRuntime :=
  { session_id := "s", max_tokens := 0, ratio_of_compress := 0,
    keep_last_n_messages := 3,
    conversation_history :=
      [{ role := "user", content := "x" },
       { role := "assistant", content := "x" },
       { role := "user", content := "x" },
       { role := "assistant", content := "x" }] }

/-- A summarization client whose call always raises. -/
def cFailClient : SummaryClient :=
  some (fun _ => Except.error { msg := "boom", tb := "tb" })

/-- With a zero token budget the compression threshold is zero, so any
positive token count triggers compression. -/
theorem should_compress_max_zero (r : AgentRuntime)
    (h : r.max_tokens = 0) :
    ContextManager.should_compress r = true ↔
      (0 : Int) < (r.token_count : Int) := by
  unfold ContextManager.should_compress pyInt
  rw [h]
  simp [Rat.num_zero, Rat.den_zero]

/-- C5 (amended): compression never raises (it is total on every state and
every summarizer outcome); when the summarization call fails it degrades to
keeping only the last keep_last_n messages; when no model client is
configured it instead clears the whole history; and it runs at most once
per turn — after add_message reduces the history it does not recompress,
even when the reduced state is still over the threshold. -/
theorem C5_compress_degrade (enc : String → Nat)
    (f : List Message → Except PyErr SummaryResponse) (e : PyErr)
    (r r2 : AgentRuntime)
    (hfail : ∀ msgs, f msgs = Except.error e)
    (hlen : r.keep_last_n_messages < r.conversation_history.length)
    (hne : r2.conversation_history ≠ []) :
    (ContextManager.compress_context enc (some f) r).1.conversation_history =
      pySliceFromNeg r.conversation_history r.keep_last_n_messages ∧
    (ContextManager.compress_context enc none
      r2).1.conversation_history = [] ∧
    ContextManager.should_compress
      (ContextManager.add_message (fun s => s.length) cFailClient
        c5aRuntime "user" "hello") = true ∧
    (ContextManager.add_message (fun s => s.length) cFailClient
      c5aRuntime "user" "hello").conversation_history ≠ [] := by
  have hne1 : r.conversation_history ≠ [] := by
    intro h0
    rw [h0] at hlen
    simp at hlen
  have hnotshort :
      ¬ r.conversation_history.length ≤ r.keep_last_n_messages :=
    not_le.mpr hlen
  have hadd : ContextManager.add_message (fun s => s.length) cFailClient
      c5aRuntime "user" "hello" =
      { c5aRuntime with
        conversation_history :=
          [{ role := "user", content := "x" },
           { role := "assistant", content := "x" },
           { role := "user", content := "hello" }],
        token_count := 7 } := by
    simp only [ContextManager.add_message]
    split
    · decide
    · rename_i hfalse
      exfalso
      apply hfalse
      rw [should_compress_max_zero _ rfl]
      decide
  refine ⟨?_, ?_, ?_, ?_⟩
  · simp [ContextManager.compress_context, hne1, hnotshort, hfail]
  · simp [ContextManager.compress_context, hne,
      ContextManager.clear_history]
  · rw [hadd, should_compress_max_zero _ rfl]
    decide
  · rw [hadd]
    decide

/-- Witness for the amended C5 at the failing client and the five-message
fixture. -/
theorem C5_compress_degrade_witness :
    (∀ msgs, (fun (_ : List Message) => Except.error
        { msg := "boom", tb := "tb" } :
        List Message → Except PyErr SummaryResponse) msgs =
      Except.error ({ msg := "boom", tb := "tb" } : PyErr)) ∧
    c5Runtime.keep_last_n_messages <
      c5Runtime.conversation_history.length ∧
    c5Runtime.conversation_history ≠ [] ∧
    (ContextManager.compress_context (fun s => s.length)
        (some (fun _ => Except.error { msg := "boom", tb := "tb" }))
        c5Runtime).1.conversation_history =
      pySliceFromNeg c5Runtime.conversation_history
        c5Runtime.keep_last_n_messages :=
  ⟨fun _ => rfl, by decide, by decide,
    (C5_compress_degrade (fun s => s.length)
      (fun _ => Except.error { msg := "boom", tb := "tb" })
      { msg := "boom", tb := "tb" } c5Runtime c5Runtime
      (fun _ => rfl) (by decide) (by decide)).1⟩

/-- C6 counterexample fixture: four one-character messages. -/
def c6Runtime : AgentRuntime :=
  { session_id := "s",
    conversation_history :=
      [{ role := "user", content := "a" },
       { role := "assistant", content := "b" },
       { role := "user", content := "c" },
       { role := "assistant", content := "d" }] }

/-- A summarization client returning a ten-character summary. -/
def c6Client : SummaryClient :=
  some (fun _ => Except.ok { content := some "0123456789" })

/-- C6 counterexample: the model-generated summary can be longer than the
prefix it replaces, so compressing a state with a non-empty prefix can
increase the token count. -/
theorem C6_counterexample :
    c6Runtime.keep_last_n_messages <
      c6Runtime.conversation_history.length ∧
    ContextManager.count_tokens (fun s => s.length)
        (ContextManager.compress_context (fun s => s.length) c6Client
          c6Runtime).1.conversation_history >
      ContextManager.count_tokens (fun s => s.length)
        c6Runtime.conversation_history := by
  exact ⟨by decide, by decide⟩

/-- C6 (amended): compression never increases the token count provided the
synthetic messages it prepends (summary plus skill metadata) cost no more
tokens than the summarized prefix; on the no-client, summarization-failure
and short-history paths the bound holds unconditionally. -/
theorem C6_compress_token_bound (enc : String → Nat) (client : SummaryClient)
    (r : AgentRuntime)
    (hbound : ∀ f resp, client = some f →
      f (summaryPromptMessages r) = Except.ok resp →
      ContextManager.count_tokens enc (summaryMessagesOf r resp) ≤
        ContextManager.count_tokens enc
          (pySliceUpToNeg r.conversation_history r.keep_last_n_messages)) :
    ContextManager.count_tokens enc
        (ContextManager.compress_context enc client
          r).1.conversation_history ≤
      ContextManager.count_tokens enc r.conversation_history := by
  have hsplit : ContextManager.count_tokens enc
      (pySliceUpToNeg r.conversation_history r.keep_last_n_messages) +
      ContextManager.count_tokens enc
        (pySliceFromNeg r.conversation_history r.keep_last_n_messages) =
      ContextManager.count_tokens enc r.conversation_history := by
    rw [← count_tokens_append, pySlice_append]
  cases client with
  | none =>
    by_cases h0 : r.conversation_history = []
    · simp [ContextManager.compress_context, h0]
    · simp [ContextManager.compress_context, h0,
        ContextManager.clear_history, ContextManager.count_tokens]
  | some f =>
    by_cases h0 : r.conversation_history = []
    · simp [ContextManager.compress_context, h0]
    · by_cases h1 :
        r.conversation_history.length ≤ r.keep_last_n_messages
      · simp [ContextManager.compress_context, h0, h1,
          ContextManager.clear_history, ContextManager.count_tokens]
      · cases hres : f (summaryPromptMessages r) with
        | error e =>
          simp only [ContextManager.compress_context, h0, h1, hres,
            if_neg, if_false]
          omega
        | ok resp =>
          have hb := hbound f resp rfl hres
          simp only [ContextManager.compress_context, h0, h1, hres,
            if_neg, if_false]
          rw [count_tokens_append]
          omega

/-- C6 amended-claim fixture: a long first message so the prefix outweighs
the short summary. -/
def c6bRuntime : AgentRuntime :=
  { session_id := "s",
    conversation_history :=
      [{ role := "user", content := "aaaaaaaaaaaaaaaaaaaaaaaa" },
       { role := "assistant", content := "b" },
       { role := "user", content := "c" },
       { role := "assistant", content := "d" }] }

/-- A summarization client returning a one-character summary. -/
def c6bClient : SummaryClient :=
  some (fun _ => Except.ok { content := some "s" })

/-- Witness for the amended C6: the short summary costs fewer tokens than
the long prefix, and compression indeed does not increase the count. -/
theorem C6_compress_token_bound_witness :
    (∀ f resp, c6bClient = some f →
      f (summaryPromptMessages c6bRuntime) = Except.ok resp →
      ContextManager.count_tokens (fun s => s.length)
          (summaryMessagesOf c6bRuntime resp) ≤
        ContextManager.count_tokens (fun s => s.length)
          (pySliceUpToNeg c6bRuntime.conversation_history
            c6bRuntime.keep_last_n_messages)) ∧
    ContextManager.count_tokens (fun s => s.length)
        (ContextManager.compress_context (fun s => s.length) c6bClient
          c6bRuntime).1.conversation_history ≤
      ContextManager.count_tokens (fun s => s.length)
        c6bRuntime.conversation_history := by
  have hb : ∀ f resp, c6bClient = some f →
      f (summaryPromptMessages c6bRuntime) = Except.ok resp →
      ContextManager.count_tokens (fun s => s.length)
          (summaryMessagesOf c6bRuntime resp) ≤
        ContextManager.count_tokens (fun s => s.length)
          (pySliceUpToNeg c6bRuntime.conversation_history
            c6bRuntime.keep_last_n_messages) := by
    intro f resp hf hresp
    simp only [c6bClient, Option.some.injEq] at hf
    subst hf
    simp only [Except.ok.injEq] at hresp
    subst hresp
    decide
  exact ⟨hb, C6_compress_token_bound (fun s => s.length) c6bClient
    c6bRuntime hb⟩

end Kagent
